import Mathlib

/-!
Shallow embedding of the faucet server (src/unnamed/part_000, the complete
variant of the repository: it contains the in-memory cooldown store with its
periodic sweep, the three-token registry, the native-token dispatch and the
POST /faucet/:token/:address handler).  The current wall-clock time
(Date.now()) is passed explicitly, and each awaited chain interaction is an
oracle input of type Except String String (a thrown error carries
err.message, a success carries the transaction hash).
-/

/-- Timestamps in milliseconds since the epoch, as produced by Date.now(). -/
abbrev Millis := Nat

/-- The cooldown window, written 24 * 60 * 60 * 1000 in the source. -/
def cooldownWindowMs : Nat := 24 * 60 * 60 * 1000

/-- The sweep interval passed to setInterval, written 1000 * 60 * 60 * 24. -/
def sweepIntervalMs : Nat := 1000 * 60 * 60 * 24

/-- SentData: the per-address object mapping token name to last-sent
timestamp. -/
abbrev SentData := List (String × Millis)

/-- SentMemory: the object mapping address to its SentData. -/
abbrev SentMemory := List (String × SentData)

/-- Replace the first binding of a key, or append a fresh binding: the
effect of a JS computed-property assignment on an object (insertion order
of an existing key is preserved). -/
def setAssoc (k : String) (v : α) : List (String × α) → List (String × α)
  | [] => [(k, v)]
  | (k₂, v₂) :: rest => if k₂ = k then (k, v) :: rest else (k₂, v₂) :: setAssoc k v rest

/-- getLastSentTimeStamp (part_000 lines 32-38).  The JS guard
sentMemory[address] && sentMemory[address][tokenName] is truthiness: the
address object exists and the stored number exists and is nonzero. -/
def getLastSentTimeStamp (mem : SentMemory) (address tokenName : String) : Option Millis :=
  match mem.lookup address with
  | some data =>
    match data.lookup tokenName with
    | some ts => if ts = 0 then none else some ts
    | none => none
  | none => none

/-- setLastSentTimeStamp (part_000 lines 40-51), with Date.now() passed in
as now.  An existing address object is spread-copied with the token key
overwritten; a missing one is created fresh. -/
def setLastSentTimeStamp (mem : SentMemory) (address token : String) (now : Millis) : SentMemory :=
  match mem.lookup address with
  | some data => setAssoc address (setAssoc token now data) mem
  | none => setAssoc address [(token, now)] mem

/-- An entry survives the sweep when its timestamp is not at most
now - 24h; JS numbers are signed, hence the comparison over Int. -/
def sweepKeeps (now ts : Millis) : Bool :=
  !(decide ((ts : Int) ≤ (now : Int) - (cooldownWindowMs : Int)))

/-- The sweep body (part_000 lines 53-61): delete every inner
(address, token) binding whose timestamp is at most now - 24h; the address
keys themselves are never deleted. -/
def sweep (now : Millis) (mem : SentMemory) : SentMemory :=
  mem.map (fun p => (p.1, p.2.filter (fun q => sweepKeeps now q.2)))

/-- The one contract handle of the process, jhkToken, bound at startup. -/
inductive ContractHandle
  | jhkToken
deriving DecidableEq

/-- faucetAmount has TS type BigNumber | string. -/
inductive Amount
  | big (n : Nat)
  | str (s : String)
deriving DecidableEq

/-- How an Amount renders inside a template literal: a BigNumber prints its
decimal value, a string prints itself. -/
def Amount.display : Amount → String
  | .big n => toString n
  | .str s => s

/-- One entry of the supportedTokens registry. -/
structure TokenConfig where
  faucetAmount : Amount
  contract : Option ContractHandle
deriving DecidableEq

/-- ethers.utils.parseEther "5.0", in wei. -/
def parseEther5 : Nat := 5000000000000000000

/-- The ETH registry entry (part_000 lines 79-82). -/
def ethConfig : TokenConfig := { faucetAmount := .big parseEther5, contract := none }

/-- The USDC registry entry (part_000 lines 83-86). -/
def usdcConfig : TokenConfig := { faucetAmount := .str "0x25AF080", contract := some .jhkToken }

/-- The EDG registry entry (part_000 lines 87-90). -/
def edgConfig : TokenConfig := { faucetAmount := .big parseEther5, contract := none }

/-- supportedTokens (part_000 lines 78-91), as key lookup on the object. -/
def supportedTokens (key : String) : Option TokenConfig :=
  if key = "ETH" then some ethConfig
  else if key = "USDC" then some usdcConfig
  else if key = "EDG" then some edgConfig
  else none

/-- getContract (part_000 lines 110-117): a switch returning the USDC
registry entry for 'USDC' and undefined otherwise. -/
def getContract (tokenName : String) : Option TokenConfig :=
  if tokenName = "USDC" then some usdcConfig else none

/-- The two signing wallets created at startup: ethersWallet on the primary
chain provider, edgWallet on the secondary chain provider. -/
inductive Wallet
  | ethersWallet
  | edgWallet
deriving DecidableEq

/-- The argument object of wallet.sendTransaction; recipient is the field
written to: in the source. -/
structure TxRequest where
  recipient : String
  value : Amount
deriving DecidableEq

/-- The outcome of one awaited chain interaction: an acknowledged
submission carrying the transaction hash, or a thrown error carrying
err.message. -/
abbrev ChainOutcome := Except String String

/-- What sentNativeTokens produces: the message it returns, and the
sendTransaction call it performed, when one was performed. -/
structure NativeSendOutcome where
  message : String
  submitted : Option (Wallet × TxRequest)
deriving DecidableEq

/-- The property access supportedTokens[tokenName].faucetAmount; inside
sentNativeTokens it is reached only with tokenName ETH or EDG, where the
lookup succeeds, so the fallback value is unreachable there. -/
def faucetAmountAccess (tokenName : String) : Amount :=
  ((supportedTokens tokenName).map TokenConfig.faucetAmount).getD (.str "")

/-- sentNativeTokens (part_000 lines 93-108).  The wallet is chosen by the
ternary on the token name; the whole body is wrapped in try/catch, so a
thrown chain error is returned as the message. -/
def sentNativeTokens (tokenName address : String) (chain : ChainOutcome) : NativeSendOutcome :=
  let wallet : Option Wallet :=
    if tokenName = "ETH" then some .ethersWallet
    else if tokenName = "EDG" then some .edgWallet
    else none
  match wallet with
  | some w =>
    let amount := faucetAmountAccess tokenName
    let tx : TxRequest := { recipient := address, value := amount }
    match chain with
    | .ok hash =>
      { message := "Sent " ++ amount.display ++ " " ++ tokenName ++ " TX hash: " ++ hash ++ ".",
        submitted := some (w, tx) }
    | .error msg => { message := msg, submitted := some (w, tx) }
  | none => { message := "Token unsupported.", submitted := none }

/-- The chain interaction a handler run performs, when it performs one. -/
inductive FaucetAction
  | nativeSend (w : Wallet) (tx : TxRequest)
  | contractTransfer (c : ContractHandle) (recipient : String) (amount : Amount)
deriving DecidableEq

/-- One handler run: the text sent in the response, the cooldown memory
afterwards, and the chain interaction performed, if any. -/
structure HandlerResult where
  response : String
  memory : SentMemory
  action : Option FaucetAction
deriving DecidableEq

/-- A hexadecimal character, as in the character class [a-fA-F0-9]. -/
def isHexChar (c : Char) : Bool :=
  (decide ( '0' ≤ c) && decide (c ≤ '9'))
  || (decide ( 'a' ≤ c) && decide (c ≤ 'f'))
  || (decide ( 'A' ≤ c) && decide (c ≤ 'F'))

/-- The address pattern 0x followed by exactly 40 hexadecimal characters,
anchored at both ends. -/
def validAddress (s : String) : Bool :=
  match s.toList with
  | '0' :: 'x' :: rest => (rest.length == 40) && rest.all isHexChar
  | _ => false

/-- The guard req.params.address && pattern.test(req.params.address):
truthiness of the string, then the regular-expression test. -/
def addressCheck (address : String) : Bool :=
  (address != "") && validAddress address

/-- The cooldown gate !lastSent || lastSent <= Date.now() - 24h
(part_000 line 152); getLastSentTimeStamp never yields a zero timestamp,
so !lastSent is exactly absence. -/
def cooldownPasses (mem : SentMemory) (now : Millis) (address token : String) : Bool :=
  match getLastSentTimeStamp mem address token with
  | none => true
  | some v => decide ((v : Int) ≤ (now : Int) - (cooldownWindowMs : Int))

/-- The POST /faucet/:token/:address handler (part_000 lines 150-182).
Date.now() is passed as now; the one awaited chain interaction of the run
is the oracle chain.  Note the order of the guards: the timestamp is
recorded before the token and address are validated. -/
def faucetHandler (mem : SentMemory) (now : Millis) (token address : String)
    (chain : ChainOutcome) : HandlerResult :=
  if cooldownPasses mem now address token then
    let mem' := setLastSentTimeStamp mem address token now
    if (supportedTokens token).isSome then
      if addressCheck address then
        if token = "ETH" ∨ token = "EDG" then
          let r := sentNativeTokens token address chain
          { response := r.message, memory := mem',
            action := r.submitted.map (fun p => FaucetAction.nativeSend p.1 p.2) }
        else
          match getContract token with
          | some cfg =>
            match cfg.contract with
            | some c =>
              match chain with
              | .ok _ =>
                { response := "Sent " ++ cfg.faucetAmount.display ++ " " ++ token ++ ".",
                  memory := mem',
                  action := some (.contractTransfer c address cfg.faucetAmount) }
              | .error msg =>
                { response := msg, memory := mem',
                  action := some (.contractTransfer c address cfg.faucetAmount) }
            | none =>
              { response := "Unsupported token " ++ token ++ ".", memory := mem', action := none }
          | none =>
            { response := "Unsupported token " ++ token ++ ".", memory := mem', action := none }
      else { response := "Invalid address", memory := mem', action := none }
    else { response := "Unsupported token " ++ token ++ ".", memory := mem', action := none }
  else { response := "Have already recieved tokens in last 24 hours.", memory := mem, action := none }

/-- getLastSentTimeStamp in state-passing form: its body only reads
sentMemory, so the state component comes back unchanged. -/
def getLastSentTimeStampS (mem : SentMemory) (address tokenName : String) :
    Option Millis × SentMemory :=
  (getLastSentTimeStamp mem address tokenName, mem)

/-- A memory whose per-address objects carry no duplicate token keys; JS
objects cannot hold duplicate keys, so every store the program builds has
this shape. -/
def WFMemory (mem : SentMemory) : Prop :=
  ∀ p ∈ mem, (p.2.map Prod.fst).Nodup

/-! Association-list lemmas used throughout. -/

theorem lookup_setAssoc_self (k : String) (v : α) (l : List (String × α)) :
    (setAssoc k v l).lookup k = some v := by
  induction l with
  | nil => simp [setAssoc, List.lookup_cons]
  | cons hd tl ih =>
    obtain ⟨k₂, v₂⟩ := hd
    by_cases h : k₂ = k
    · simp [setAssoc, h, List.lookup_cons]
    · simp [setAssoc, h, List.lookup_cons, beq_false_of_ne (Ne.symm h), ih]

theorem lookup_setAssoc_ne (k k' : String) (v : α) (l : List (String × α)) (h : k' ≠ k) :
    (setAssoc k v l).lookup k' = l.lookup k' := by
  induction l with
  | nil => simp [setAssoc, List.lookup_cons, beq_false_of_ne h]
  | cons hd tl ih =>
    obtain ⟨k₂, v₂⟩ := hd
    by_cases hk : k₂ = k
    · subst hk
      simp [setAssoc, List.lookup_cons, beq_false_of_ne h]
    · simp [setAssoc, hk, List.lookup_cons, ih]

theorem lookup_map_snd (l : List (String × β)) (a : String) (f : β → γ) :
    ((l.map (fun p => (p.1, f p.2))).lookup a) = (l.lookup a).map f := by
  induction l with
  | nil => simp
  | cons hd tl ih =>
    obtain ⟨k, v⟩ := hd
    by_cases h : a = k
    · simp [h, List.lookup_cons]
    · simp [List.lookup_cons, beq_false_of_ne h, ih]

theorem lookup_eq_none_of_forall_ne (l : List (String × β)) (a : String)
    (h : ∀ p ∈ l, p.1 ≠ a) : l.lookup a = none := by
  induction l with
  | nil => simp
  | cons hd tl ih =>
    obtain ⟨k, v⟩ := hd
    have hk : k ≠ a := h (k, v) (List.mem_cons_self _ _)
    simp [List.lookup_cons, beq_false_of_ne (Ne.symm hk),
      ih (fun p hp => h p (List.mem_cons_of_mem _ hp))]

theorem lookup_filter_nodup (l : List (String × Millis)) (t : String) (p : Millis → Bool)
    (hnd : (l.map Prod.fst).Nodup) :
    (l.filter (fun q => p q.2)).lookup t =
      (match l.lookup t with
      | some v => if p v then some v else none
      | none => none) := by
  induction l with
  | nil => simp
  | cons hd tl ih =>
    obtain ⟨k, v⟩ := hd
    simp only [List.map_cons, List.nodup_cons] at hnd
    by_cases h : t = k
    · subst h
      by_cases hp : p v
      · simp [List.filter_cons, hp, List.lookup_cons]
      · have hnone : (tl.filter (fun q => p q.2)).lookup t = none := by
          apply lookup_eq_none_of_forall_ne
          intro q hq he
          exact hnd.1 (he ▸ List.mem_map_of_mem Prod.fst (List.mem_of_mem_filter hq))
        simp [List.filter_cons, hp, List.lookup_cons, hnone]
    · by_cases hp : p v <;>
        simp [List.filter_cons, hp, List.lookup_cons, beq_false_of_ne h, ih hnd.2]

theorem mem_of_lookup_eq_some (l : List (String × β)) (a : String) (b : β)
    (h : l.lookup a = some b) : (a, b) ∈ l := by
  induction l with
  | nil => simp at h
  | cons hd tl ih =>
    obtain ⟨k, v⟩ := hd
    rw [List.lookup_cons] at h
    by_cases hk : a = k
    · subst hk
      simp at h
      exact h ▸ List.mem_cons_self _ _
    · rw [beq_false_of_ne hk] at h
      exact List.mem_cons_of_mem _ (ih h)

/-! Cooldown-store lemmas. -/

theorem get_set_same (mem : SentMemory) (a t : String) (now : Millis) (h : now ≠ 0) :
    getLastSentTimeStamp (setLastSentTimeStamp mem a t now) a t = some now := by
  unfold setLastSentTimeStamp getLastSentTimeStamp
  cases hm : mem.lookup a with
  | some data => simp [hm, lookup_setAssoc_self, h]
  | none => simp [hm, lookup_setAssoc_self, List.lookup_cons, h]

theorem get_set_frame (mem : SentMemory) (a t : String) (now : Millis) (a' t' : String)
    (h : a' ≠ a ∨ t' ≠ t) :
    getLastSentTimeStamp (setLastSentTimeStamp mem a t now) a' t' =
      getLastSentTimeStamp mem a' t' := by
  by_cases ha : a' = a
  · subst ha
    have ht : t' ≠ t := h.resolve_left (by simp)
    unfold setLastSentTimeStamp getLastSentTimeStamp
    cases hm : mem.lookup a' with
    | some data => simp [hm, lookup_setAssoc_self, lookup_setAssoc_ne _ _ _ _ ht]
    | none => simp [hm, lookup_setAssoc_self, List.lookup_cons, beq_false_of_ne ht]
  · unfold setLastSentTimeStamp getLastSentTimeStamp
    cases hm : mem.lookup a with
    | some data => simp [hm, lookup_setAssoc_ne _ _ _ _ ha]
    | none => simp [hm, lookup_setAssoc_ne _ _ _ _ ha]

/-! Handler-evaluation lemmas: one per branch of the route. -/

theorem supported_token_cases (t : String) (h : (supportedTokens t).isSome = true) :
    t = "ETH" ∨ t = "USDC" ∨ t = "EDG" := by
  unfold supportedTokens at h
  by_cases h1 : t = "ETH"
  · exact Or.inl h1
  · by_cases h2 : t = "USDC"
    · exact Or.inr (Or.inl h2)
    · by_cases h3 : t = "EDG"
      · exact Or.inr (Or.inr h3)
      · simp [h1, h2, h3] at h

theorem handler_cooldown_blocked (mem : SentMemory) (now : Millis) (t a : String)
    (chain : ChainOutcome) (h : cooldownPasses mem now a t = false) :
    faucetHandler mem now t a chain =
      { response := "Have already recieved tokens in last 24 hours.",
        memory := mem, action := none } := by
  unfold faucetHandler
  rw [h]
  simp

theorem handler_unsupported (mem : SentMemory) (now : Millis) (t a : String)
    (chain : ChainOutcome) (hg : cooldownPasses mem now a t = true)
    (ht : supportedTokens t = none) :
    faucetHandler mem now t a chain =
      { response := "Unsupported token " ++ t ++ ".",
        memory := setLastSentTimeStamp mem a t now, action := none } := by
  unfold faucetHandler
  rw [hg, ht]
  simp

theorem handler_invalid_address (mem : SentMemory) (now : Millis) (t a : String)
    (chain : ChainOutcome) (hg : cooldownPasses mem now a t = true)
    (ht : (supportedTokens t).isSome = true) (ha : addressCheck a = false) :
    faucetHandler mem now t a chain =
      { response := "Invalid address",
        memory := setLastSentTimeStamp mem a t now, action := none } := by
  unfold faucetHandler
  rw [hg, ht, ha]
  simp

theorem handler_eth (mem : SentMemory) (now : Millis) (a : String) (chain : ChainOutcome)
    (hg : cooldownPasses mem now a "ETH" = true) (ha : addressCheck a = true) :
    faucetHandler mem now "ETH" a chain =
      { response := (sentNativeTokens "ETH" a chain).message,
        memory := setLastSentTimeStamp mem a "ETH" now,
        action := ((sentNativeTokens "ETH" a chain).submitted).map
          (fun p => FaucetAction.nativeSend p.1 p.2) } := by
  unfold faucetHandler
  rw [hg, ha]
  simp [supportedTokens]

theorem handler_edg (mem : SentMemory) (now : Millis) (a : String) (chain : ChainOutcome)
    (hg : cooldownPasses mem now a "EDG" = true) (ha : addressCheck a = true) :
    faucetHandler mem now "EDG" a chain =
      { response := (sentNativeTokens "EDG" a chain).message,
        memory := setLastSentTimeStamp mem a "EDG" now,
        action := ((sentNativeTokens "EDG" a chain).submitted).map
          (fun p => FaucetAction.nativeSend p.1 p.2) } := by
  unfold faucetHandler
  rw [hg, ha]
  simp [supportedTokens]

theorem handler_usdc (mem : SentMemory) (now : Millis) (a : String) (chain : ChainOutcome)
    (hg : cooldownPasses mem now a "USDC" = true) (ha : addressCheck a = true) :
    faucetHandler mem now "USDC" a chain =
      match chain with
      | .ok _ =>
        { response := "Sent 0x25AF080 USDC.",
          memory := setLastSentTimeStamp mem a "USDC" now,
          action := some (.contractTransfer .jhkToken a (.str "0x25AF080")) }
      | .error msg =>
        { response := msg,
          memory := setLastSentTimeStamp mem a "USDC" now,
          action := some (.contractTransfer .jhkToken a (.str "0x25AF080")) } := by
  unfold faucetHandler
  rw [hg, ha]
  cases chain <;> simp [supportedTokens, usdcConfig, getContract, Amount.display]

theorem sentNativeTokens_eth (a : String) (chain : ChainOutcome) :
    sentNativeTokens "ETH" a chain =
      match chain with
      | .ok hash =>
        { message := "Sent " ++ ethConfig.faucetAmount.display ++ " ETH TX hash: " ++ hash ++ ".",
          submitted := some (.ethersWallet, { recipient := a, value := ethConfig.faucetAmount }) }
      | .error msg =>
        { message := msg,
          submitted := some (.ethersWallet, { recipient := a, value := ethConfig.faucetAmount }) } := by
  cases chain with
  | error msg => simp [sentNativeTokens, faucetAmountAccess, supportedTokens]
  | ok hash =>
    simp only [sentNativeTokens, faucetAmountAccess, supportedTokens]
    simp only [if_true, eq_self_iff_true, Option.map_some, Option.getD_some, reduceIte]
    congr 2

theorem sentNativeTokens_edg (a : String) (chain : ChainOutcome) :
    sentNativeTokens "EDG" a chain =
      match chain with
      | .ok hash =>
        { message := "Sent " ++ edgConfig.faucetAmount.display ++ " EDG TX hash: " ++ hash ++ ".",
          submitted := some (.edgWallet, { recipient := a, value := edgConfig.faucetAmount }) }
      | .error msg =>
        { message := msg,
          submitted := some (.edgWallet, { recipient := a, value := edgConfig.faucetAmount }) } := by
  cases chain with
  | error msg => simp [sentNativeTokens, faucetAmountAccess, supportedTokens]
  | ok hash =>
    simp only [sentNativeTokens, faucetAmountAccess, supportedTokens]
    simp only [if_true, eq_self_iff_true, Option.map_some, Option.getD_some, reduceIte]
    congr 2

/-! Claim theorems. -/

/-- C1 (amended): for a pair with a recorded last-sent timestamp, a
supported token and a valid address, the handler performs a chain
interaction iff now - lastSent is at least 86400000 ms, equality counting
as eligible; when the pair is not eligible the handler responds
"Have already recieved tokens in last 24 hours." (the source's spelling),
performs no chain interaction and leaves the memory unchanged. -/
theorem C1_cooldown_gate (mem : SentMemory) (now : Millis) (t a : String) (v : Millis)
    (chain : ChainOutcome)
    (hv : getLastSentTimeStamp mem a t = some v)
    (ht : (supportedTokens t).isSome = true)
    (ha : addressCheck a = true) :
    ((faucetHandler mem now t a chain).action ≠ none ↔
      (cooldownWindowMs : Int) ≤ (now : Int) - (v : Int))
    ∧ ((now : Int) - (v : Int) < (cooldownWindowMs : Int) →
      (faucetHandler mem now t a chain).response
          = "Have already recieved tokens in last 24 hours."
      ∧ (faucetHandler mem now t a chain).action = none
      ∧ (faucetHandler mem now t a chain).memory = mem) := by
  have hcp : cooldownPasses mem now a t
      = decide ((v : Int) ≤ (now : Int) - (cooldownWindowMs : Int)) := by
    unfold cooldownPasses
    rw [hv]
  by_cases helig : (v : Int) ≤ (now : Int) - (cooldownWindowMs : Int)
  · have hgate : cooldownPasses mem now a t = true := by
      rw [hcp]
      exact decide_eq_true helig
    have hact : (faucetHandler mem now t a chain).action ≠ none := by
      rcases supported_token_cases t ht with h1 | h2 | h3
      · subst h1
        rw [handler_eth mem now a chain hgate ha, sentNativeTokens_eth]
        cases chain <;> simp
      · subst h2
        rw [handler_usdc mem now a chain hgate ha]
        cases chain <;> simp
      · subst h3
        rw [handler_edg mem now a chain hgate ha, sentNativeTokens_edg]
        cases chain <;> simp
    exact ⟨⟨fun _ => by omega, fun _ => hact⟩, fun hlt => by omega⟩
  · have hgate : cooldownPasses mem now a t = false := by
      rw [hcp]
      exact decide_eq_false helig
    rw [handler_cooldown_blocked mem now t a chain hgate]
    refine ⟨⟨fun hne => (hne rfl).elim, fun hle => by omega⟩, fun _ => ⟨rfl, rfl, rfl⟩⟩

/-- C1 counterexample: a pair recorded at 1 queried at 2 is inside the
window; the handler's actual response is the misspelled
"Have already recieved tokens in last 24 hours.", not the message the
claim states. -/
theorem C1_message_misspelled :
    (faucetHandler [("0xAAAAAAAAAAAAAAAAAAAAAAAAAAAAAAAAAAAAAAAA", [("ETH", 1)])] 2 "ETH"
        "0xAAAAAAAAAAAAAAAAAAAAAAAAAAAAAAAAAAAAAAAA" (Except.ok "0xh")).response
      = "Have already recieved tokens in last 24 hours."
    ∧ (faucetHandler [("0xAAAAAAAAAAAAAAAAAAAAAAAAAAAAAAAAAAAAAAAA", [("ETH", 1)])] 2 "ETH"
        "0xAAAAAAAAAAAAAAAAAAAAAAAAAAAAAAAAAAAAAAAA" (Except.ok "0xh")).response
      ≠ "Have already received tokens in last 24 hours." := by
  exact ⟨by decide, by decide⟩

/-- C1 witness: the gate theorem applied at a recorded timestamp 1,
now 86400001, token ETH and a valid address. -/
theorem C1_witness :
    (getLastSentTimeStamp [("0xAAAAAAAAAAAAAAAAAAAAAAAAAAAAAAAAAAAAAAAA", [("ETH", 1)])]
        "0xAAAAAAAAAAAAAAAAAAAAAAAAAAAAAAAAAAAAAAAA" "ETH" = some 1)
    ∧ (supportedTokens "ETH").isSome = true
    ∧ addressCheck "0xAAAAAAAAAAAAAAAAAAAAAAAAAAAAAAAAAAAAAAAA" = true
    ∧ (((faucetHandler [("0xAAAAAAAAAAAAAAAAAAAAAAAAAAAAAAAAAAAAAAAA", [("ETH", 1)])]
          86400001 "ETH" "0xAAAAAAAAAAAAAAAAAAAAAAAAAAAAAAAAAAAAAAAA"
          (Except.ok "0xh")).action ≠ none ↔
        (cooldownWindowMs : Int) ≤ (86400001 : Int) - (1 : Int))
      ∧ ((86400001 : Int) - (1 : Int) < (cooldownWindowMs : Int) →
        (faucetHandler [("0xAAAAAAAAAAAAAAAAAAAAAAAAAAAAAAAAAAAAAAAA", [("ETH", 1)])]
            86400001 "ETH" "0xAAAAAAAAAAAAAAAAAAAAAAAAAAAAAAAAAAAAAAAA"
            (Except.ok "0xh")).response
            = "Have already recieved tokens in last 24 hours."
        ∧ (faucetHandler [("0xAAAAAAAAAAAAAAAAAAAAAAAAAAAAAAAAAAAAAAAA", [("ETH", 1)])]
            86400001 "ETH" "0xAAAAAAAAAAAAAAAAAAAAAAAAAAAAAAAAAAAAAAAA"
            (Except.ok "0xh")).action = none
        ∧ (faucetHandler [("0xAAAAAAAAAAAAAAAAAAAAAAAAAAAAAAAAAAAAAAAA", [("ETH", 1)])]
            86400001 "ETH" "0xAAAAAAAAAAAAAAAAAAAAAAAAAAAAAAAAAAAAAAAA"
            (Except.ok "0xh")).memory
            = [("0xAAAAAAAAAAAAAAAAAAAAAAAAAAAAAAAAAAAAAAAA", [("ETH", 1)])])) :=
  ⟨by decide, by decide, by decide,
    C1_cooldown_gate [("0xAAAAAAAAAAAAAAAAAAAAAAAAAAAAAAAAAAAAAAAA", [("ETH", 1)])]
      86400001 "ETH" "0xAAAAAAAAAAAAAAAAAAAAAAAAAAAAAAAAAAAAAAAA" 1 (Except.ok "0xh")
      (by decide) (by decide) (by decide)⟩

/-- C2: a thrown chain-interaction error never escapes as a fault:
sentNativeTokens returns err.message as its message for both native
tokens, and the handler answers err.message in the body for a
contract-token transfer that throws; the run still yields an ordinary
HandlerResult. -/
theorem C2_failure_caught :
    (∀ a msg, (sentNativeTokens "ETH" a (Except.error msg)).message = msg
      ∧ (sentNativeTokens "EDG" a (Except.error msg)).message = msg)
    ∧ (∀ mem now t a msg, (t = "ETH" ∨ t = "EDG" ∨ t = "USDC") →
        cooldownPasses mem now a t = true → addressCheck a = true →
        (faucetHandler mem now t a (Except.error msg)).response = msg) := by
  constructor
  · intro a msg
    exact ⟨by rw [sentNativeTokens_eth], by rw [sentNativeTokens_edg]⟩
  · intro mem now t a msg htok hg ha
    rcases htok with h | h | h
    · subst h
      rw [handler_eth mem now a _ hg ha, sentNativeTokens_eth]
    · subst h
      rw [handler_edg mem now a _ hg ha, sentNativeTokens_edg]
    · subst h
      rw [handler_usdc mem now a _ hg ha]

/-- C2 witness: an RPC failure message comes back as the response for a
fresh valid ETH request. -/
theorem C2_witness :
    cooldownPasses [] 5 "0xAAAAAAAAAAAAAAAAAAAAAAAAAAAAAAAAAAAAAAAA" "ETH" = true
    ∧ addressCheck "0xAAAAAAAAAAAAAAAAAAAAAAAAAAAAAAAAAAAAAAAA" = true
    ∧ (faucetHandler [] 5 "ETH" "0xAAAAAAAAAAAAAAAAAAAAAAAAAAAAAAAAAAAAAAAA"
        (Except.error "insufficient funds")).response = "insufficient funds" :=
  ⟨by decide, by decide,
    C2_failure_caught.2 [] 5 "ETH" "0xAAAAAAAAAAAAAAAAAAAAAAAAAAAAAAAAAAAAAAAA"
      "insufficient funds" (Or.inl rfl) (by decide) (by decide)⟩

/-- C3 counterexample: a request for the unregistered token DOGE answers
"Unsupported token DOGE." (not "Token unsupported.") and does create a
cooldown entry for the pair, because the handler records the timestamp
before checking token support. -/
theorem C3_cooldown_entry_created :
    (faucetHandler [] 5 "DOGE" "0xAAAAAAAAAAAAAAAAAAAAAAAAAAAAAAAAAAAAAAAA"
        (Except.ok "0xh")).response = "Unsupported token DOGE."
    ∧ (faucetHandler [] 5 "DOGE" "0xAAAAAAAAAAAAAAAAAAAAAAAAAAAAAAAAAAAAAAAA"
        (Except.ok "0xh")).response ≠ "Token unsupported."
    ∧ getLastSentTimeStamp (faucetHandler [] 5 "DOGE"
        "0xAAAAAAAAAAAAAAAAAAAAAAAAAAAAAAAAAAAAAAAA" (Except.ok "0xh")).memory
        "0xAAAAAAAAAAAAAAAAAAAAAAAAAAAAAAAAAAAAAAAA" "DOGE" = some 5
    ∧ (faucetHandler [] 5 "DOGE" "0xAAAAAAAAAAAAAAAAAAAAAAAAAAAAAAAAAAAAAAAA"
        (Except.ok "0xh")).action = none := by
  exact ⟨by decide, by decide, by decide, by decide⟩

/-- C3 (amended): for a token absent from the registry, when the cooldown
gate passes the handler answers "Unsupported token {symbol}." and performs
no chain interaction, but it does record a cooldown entry for the
(address, symbol) pair with the current time. -/
theorem C3_unsupported_token (mem : SentMemory) (now : Millis) (t a : String)
    (chain : ChainOutcome) (ht : supportedTokens t = none)
    (hg : cooldownPasses mem now a t = true) (hn : now ≠ 0) :
    (faucetHandler mem now t a chain).response = "Unsupported token " ++ t ++ "."
    ∧ (faucetHandler mem now t a chain).action = none
    ∧ getLastSentTimeStamp (faucetHandler mem now t a chain).memory a t = some now := by
  rw [handler_unsupported mem now t a chain hg ht]
  exact ⟨rfl, rfl, get_set_same mem a t now hn⟩

/-- C3 witness: the amended theorem at the DOGE request of the scenario. -/
theorem C3_witness :
    supportedTokens "DOGE" = none
    ∧ cooldownPasses [] 5 "0xAAAAAAAAAAAAAAAAAAAAAAAAAAAAAAAAAAAAAAAA" "DOGE" = true
    ∧ ((faucetHandler [] 5 "DOGE" "0xAAAAAAAAAAAAAAAAAAAAAAAAAAAAAAAAAAAAAAAA"
          (Except.ok "0xh")).response = "Unsupported token " ++ "DOGE" ++ "."
      ∧ (faucetHandler [] 5 "DOGE" "0xAAAAAAAAAAAAAAAAAAAAAAAAAAAAAAAAAAAAAAAA"
          (Except.ok "0xh")).action = none
      ∧ getLastSentTimeStamp (faucetHandler [] 5 "DOGE"
          "0xAAAAAAAAAAAAAAAAAAAAAAAAAAAAAAAAAAAAAAAA" (Except.ok "0xh")).memory
          "0xAAAAAAAAAAAAAAAAAAAAAAAAAAAAAAAAAAAAAAAA" "DOGE" = some 5) :=
  ⟨by decide, by decide,
    C3_unsupported_token [] 5 "DOGE" "0xAAAAAAAAAAAAAAAAAAAAAAAAAAAAAAAAAAAAAAAA"
      (Except.ok "0xh") (by decide) (by decide) (by decide)⟩

/-- C4: recording a send for a pair makes an immediate read return exactly
the recorded time (Date.now() is never zero at runtime, hence the
positivity hypothesis forced by JS truthiness), and a read of a pair with
no stored binding returns nothing. -/
theorem C4_record_then_get :
    (∀ mem a t now, now ≠ 0 →
      getLastSentTimeStamp (setLastSentTimeStamp mem a t now) a t = some now)
    ∧ (∀ mem a t, ((mem.lookup a).bind (fun d => d.lookup t)) = none →
      getLastSentTimeStamp mem a t = none) := by
  constructor
  · exact fun mem a t now h => get_set_same mem a t now h
  · intro mem a t h
    unfold getLastSentTimeStamp
    cases hm : mem.lookup a with
    | none => rfl
    | some d =>
      rw [hm] at h
      have h' : d.lookup t = none := h
      simp [h']

/-- C4 witness: record then read on a concrete pair, and a read of a
never-recorded pair. -/
theorem C4_witness :
    (7 : Millis) ≠ 0
    ∧ getLastSentTimeStamp (setLastSentTimeStamp [] "0xA" "ETH" 7) "0xA" "ETH" = some 7
    ∧ (([] : SentMemory).lookup "0xB").bind (fun d => d.lookup "EDG") = none
    ∧ getLastSentTimeStamp [] "0xB" "EDG" = none :=
  ⟨by decide, C4_record_then_get.1 [] "0xA" "ETH" 7 (by decide), by decide,
    C4_record_then_get.2 [] "0xB" "EDG" (by decide)⟩

/-- WFMemory is a decidable property, so concrete stores can be checked. -/
instance (mem : SentMemory) : Decidable (WFMemory mem) := by
  unfold WFMemory
  infer_instance

/-- The survival test of the sweep, as an inequality on the entry's age. -/
theorem sweepKeeps_iff (now ts : Millis) :
    sweepKeeps now ts = true ↔ ¬((cooldownWindowMs : Int) ≤ (now : Int) - (ts : Int)) := by
  unfold sweepKeeps
  simp only [Bool.not_eq_true', decide_eq_false_iff_not]
  constructor <;> (intro h; omega)

/-- C5: a sweep at time now removes exactly the entries whose age is at
least 24 hours (inclusive), leaves younger entries untouched, is a no-op
on the empty store, and runs on the 24-hour interval constant. -/
theorem C5_sweep (now : Millis) (mem : SentMemory) (a t : String) (hwf : WFMemory mem) :
    (getLastSentTimeStamp (sweep now mem) a t =
      (match getLastSentTimeStamp mem a t with
      | some ts =>
        if (cooldownWindowMs : Int) ≤ (now : Int) - (ts : Int) then none else some ts
      | none => none))
    ∧ sweep now ([] : SentMemory) = []
    ∧ sweepIntervalMs = 24 * 60 * 60 * 1000 := by
  refine ⟨?_, rfl, rfl⟩
  unfold sweep getLastSentTimeStamp
  rw [lookup_map_snd]
  cases hm : mem.lookup a with
  | none => rfl
  | some d =>
    have hnd : (d.map Prod.fst).Nodup := hwf (a, d) (mem_of_lookup_eq_some mem a d hm)
    simp only [Option.map_some']
    rw [lookup_filter_nodup d t (fun ts => sweepKeeps now ts) hnd]
    cases hd : d.lookup t with
    | none => rfl
    | some ts =>
      by_cases hk : sweepKeeps now ts = true
      · have hage : ¬((cooldownWindowMs : Int) ≤ (now : Int) - (ts : Int)) :=
          (sweepKeeps_iff now ts).mp hk
        by_cases h0 : ts = 0
        · subst h0
          simp [hk, hage]
        · simp [hk, h0, hage]
      · have hk' : sweepKeeps now ts = false := by
          cases h : sweepKeeps now ts
          · rfl
          · exact absurd h hk
        have hage : (cooldownWindowMs : Int) ≤ (now : Int) - (ts : Int) := by
          have := (sweepKeeps_iff now ts).not.mp (by rw [hk']; simp)
          omega
        by_cases h0 : ts = 0
        · subst h0
          simp [hk', hage]
        · simp [hk', h0, hage]

/-- C5 witness: a two-entry store at now = 2 * 24h: the entry of age
exactly 24h is evicted, the entry of age 1 ms survives. -/
theorem C5_witness :
    WFMemory [("0xA", [("ETH", 86400000), ("EDG", 172799999)])]
    ∧ (getLastSentTimeStamp (sweep 172800000 [("0xA", [("ETH", 86400000), ("EDG", 172799999)])])
        "0xA" "ETH" =
      (match getLastSentTimeStamp [("0xA", [("ETH", 86400000), ("EDG", 172799999)])] "0xA" "ETH" with
      | some ts =>
        if (cooldownWindowMs : Int) ≤ (172800000 : Int) - (ts : Int) then none else some ts
      | none => none))
    ∧ getLastSentTimeStamp (sweep 172800000 [("0xA", [("ETH", 86400000), ("EDG", 172799999)])])
        "0xA" "ETH" = none
    ∧ getLastSentTimeStamp (sweep 172800000 [("0xA", [("ETH", 86400000), ("EDG", 172799999)])])
        "0xA" "EDG" = some 172799999 :=
  ⟨by decide,
    (C5_sweep 172800000 [("0xA", [("ETH", 86400000), ("EDG", 172799999)])] "0xA" "ETH"
      (by decide)).1,
    by decide, by decide⟩

/-- C6 counterexample: a successful USDC contract transfer answers
"Sent 0x25AF080 USDC." with no transaction hash, so the claimed shape
"Sent {amount} {token} TX hash: {hash}." fails for contract tokens. -/
theorem C6_contract_message_lacks_hash :
    (faucetHandler [] 5 "USDC" "0xAAAAAAAAAAAAAAAAAAAAAAAAAAAAAAAAAAAAAAAA"
        (Except.ok "0xabc")).response = "Sent 0x25AF080 USDC."
    ∧ (faucetHandler [] 5 "USDC" "0xAAAAAAAAAAAAAAAAAAAAAAAAAAAAAAAAAAAAAAAA"
        (Except.ok "0xabc")).response ≠ "Sent 0x25AF080 USDC TX hash: 0xabc." := by
  exact ⟨by decide, by decide⟩

/-- C6 (amended): a successful native dispense answers
"Sent {amount} {token} TX hash: {hash}." with the registry amount, while a
successful contract dispense answers "Sent {amount} {token}." without the
transaction hash. -/
theorem C6_success_messages (a hash : String) :
    ((sentNativeTokens "ETH" a (Except.ok hash)).message
        = "Sent 5000000000000000000 ETH TX hash: " ++ hash ++ ".")
    ∧ ((sentNativeTokens "EDG" a (Except.ok hash)).message
        = "Sent 5000000000000000000 EDG TX hash: " ++ hash ++ ".")
    ∧ (∀ mem now, cooldownPasses mem now a "USDC" = true → addressCheck a = true →
        (faucetHandler mem now "USDC" a (Except.ok hash)).response
          = "Sent 0x25AF080 USDC.") := by
  refine ⟨?_, ?_, ?_⟩
  · rw [sentNativeTokens_eth]
    show "Sent " ++ ethConfig.faucetAmount.display ++ " ETH TX hash: " ++ hash ++ "." = _
    congr 2
  · rw [sentNativeTokens_edg]
    show "Sent " ++ edgConfig.faucetAmount.display ++ " EDG TX hash: " ++ hash ++ "." = _
    congr 2
  · intro mem now hg ha
    rw [handler_usdc mem now a _ hg ha]

/-- C6 witness: the amended theorem at a fresh valid request with hash
0xabc. -/
theorem C6_witness :
    cooldownPasses [] 5 "0xAAAAAAAAAAAAAAAAAAAAAAAAAAAAAAAAAAAAAAAA" "USDC" = true
    ∧ addressCheck "0xAAAAAAAAAAAAAAAAAAAAAAAAAAAAAAAAAAAAAAAA" = true
    ∧ (faucetHandler [] 5 "USDC" "0xAAAAAAAAAAAAAAAAAAAAAAAAAAAAAAAAAAAAAAAA"
        (Except.ok "0xabc")).response = "Sent 0x25AF080 USDC." :=
  ⟨by decide, by decide,
    (C6_success_messages "0xAAAAAAAAAAAAAAAAAAAAAAAAAAAAAAAAAAAAAAAA" "0xabc").2.2 [] 5
      (by decide) (by decide)⟩

/-- C7: every native dispense submits exactly the registry-configured
faucet amount for the symbol, signed by the wallet of the token's chain:
ethersWallet for ETH, edgWallet for EDG, which are distinct wallets. -/
theorem C7_wallet_and_amount (a : String) (chain : ChainOutcome) :
    ((sentNativeTokens "ETH" a chain).submitted
        = some (Wallet.ethersWallet, { recipient := a, value := ethConfig.faucetAmount }))
    ∧ ((sentNativeTokens "EDG" a chain).submitted
        = some (Wallet.edgWallet, { recipient := a, value := edgConfig.faucetAmount }))
    ∧ supportedTokens "ETH" = some ethConfig
    ∧ supportedTokens "EDG" = some edgConfig
    ∧ Wallet.ethersWallet ≠ Wallet.edgWallet := by
  refine ⟨?_, ?_, by decide, by decide, by decide⟩
  · rw [sentNativeTokens_eth]
    cases chain <;> rfl
  · rw [sentNativeTokens_edg]
    cases chain <;> rfl

/-- C8 counterexample: the token-support check precedes the address check,
so an invalid address with an unregistered token answers
"Unsupported token DOGE.", not "Invalid address"; no transfer happens. -/
theorem C8_unsupported_precedes_address :
    (faucetHandler [] 5 "DOGE" "not-an-address" (Except.ok "0xh")).response
        = "Unsupported token DOGE."
    ∧ (faucetHandler [] 5 "DOGE" "not-an-address" (Except.ok "0xh")).response
        ≠ "Invalid address"
    ∧ validAddress "not-an-address" = false
    ∧ (faucetHandler [] 5 "DOGE" "not-an-address" (Except.ok "0xh")).action = none := by
  exact ⟨by decide, by decide, by decide, by decide⟩

/-- C8 (amended): for an address failing the pattern the handler never
performs a chain interaction; it answers "Invalid address" when the
cooldown gate passes and the token is supported (the earlier checks answer
first otherwise). -/
theorem C8_invalid_address (mem : SentMemory) (now : Millis) (t a : String)
    (chain : ChainOutcome) (hv : validAddress a = false) :
    (faucetHandler mem now t a chain).action = none
    ∧ (cooldownPasses mem now a t = true → (supportedTokens t).isSome = true →
        (faucetHandler mem now t a chain).response = "Invalid address") := by
  have hac : addressCheck a = false := by
    unfold addressCheck
    rw [hv, Bool.and_false]
  by_cases hg : cooldownPasses mem now a t = true
  · by_cases ht : (supportedTokens t).isSome = true
    · rw [handler_invalid_address mem now t a chain hg ht hac]
      exact ⟨rfl, fun _ _ => rfl⟩
    · have ht' : supportedTokens t = none := by
        cases h : supportedTokens t with
        | none => rfl
        | some cfg => rw [h] at ht; exact absurd rfl ht
      rw [handler_unsupported mem now t a chain hg ht']
      exact ⟨rfl, fun _ h2 => absurd h2 ht⟩
  · have hg' : cooldownPasses mem now a t = false := by
      cases h : cooldownPasses mem now a t
      · rfl
      · exact absurd h hg
    rw [handler_cooldown_blocked mem now t a chain hg']
    exact ⟨rfl, fun h1 _ => absurd h1 hg⟩

/-- C8 witness: the amended theorem at a fresh request for a supported
token with a malformed address. -/
theorem C8_witness :
    validAddress "0xZZ" = false
    ∧ ((faucetHandler [] 5 "ETH" "0xZZ" (Except.ok "0xh")).action = none
      ∧ (cooldownPasses [] 5 "0xZZ" "ETH" = true → (supportedTokens "ETH").isSome = true →
        (faucetHandler [] 5 "ETH" "0xZZ" (Except.ok "0xh")).response = "Invalid address")) :=
  ⟨by decide, C8_invalid_address [] 5 "ETH" "0xZZ" (Except.ok "0xh") (by decide)⟩

/-- C9: overwriting one pair's timestamp leaves every other pair's reading
unchanged, and the read operation returns the store itself untouched. -/
theorem C9_set_frame_get_pure (mem : SentMemory) (a t : String) (now : Millis)
    (a' t' : String) (h : a' ≠ a ∨ t' ≠ t) :
    getLastSentTimeStamp (setLastSentTimeStamp mem a t now) a' t'
        = getLastSentTimeStamp mem a' t'
    ∧ (∀ mem₂ x y, (getLastSentTimeStampS mem₂ x y).2 = mem₂) :=
  ⟨get_set_frame mem a t now a' t' h, fun _ _ _ => rfl⟩

/-- C9 witness: writing (0xA, ETH) does not disturb the reading of
(0xA, EDG) in a concrete store. -/
theorem C9_witness :
    (("0xA" : String) ≠ "0xA" ∨ ("EDG" : String) ≠ "ETH")
    ∧ (getLastSentTimeStamp (setLastSentTimeStamp [("0xA", [("EDG", 3)])] "0xA" "ETH" 9)
          "0xA" "EDG"
        = getLastSentTimeStamp [("0xA", [("EDG", 3)])] "0xA" "EDG"
      ∧ (∀ mem₂ x y, (getLastSentTimeStampS mem₂ x y).2 = mem₂)) :=
  ⟨Or.inr (by decide),
    C9_set_frame_get_pure [("0xA", [("EDG", 3)])] "0xA" "ETH" 9 "0xA" "EDG"
      (Or.inr (by decide))⟩

/-- C10: getContract returns the USDC configuration exactly on "USDC" and
nothing otherwise, in particular nothing on ETH and EDG; and a valid
eligible ETH or EDG request is dispatched as a native send. -/
theorem C10_getContract_exact :
    getContract "USDC" = some usdcConfig
    ∧ (∀ s, s ≠ "USDC" → getContract s = none)
    ∧ getContract "ETH" = none
    ∧ getContract "EDG" = none
    ∧ (∀ mem now a chain t, (t = "ETH" ∨ t = "EDG") →
        cooldownPasses mem now a t = true → addressCheck a = true →
        ∃ w tx, (faucetHandler mem now t a chain).action
            = some (FaucetAction.nativeSend w tx)) := by
  refine ⟨by decide, ?_, by decide, by decide, ?_⟩
  · intro s hs
    unfold getContract
    simp [hs]
  · intro mem now a chain t htok hg ha
    rcases htok with h | h
    · subst h
      rw [handler_eth mem now a chain hg ha, sentNativeTokens_eth]
      cases chain <;> exact ⟨_, _, rfl⟩
    · subst h
      rw [handler_edg mem now a chain hg ha, sentNativeTokens_edg]
      cases chain <;> exact ⟨_, _, rfl⟩

/-- C10 witness: a fresh valid ETH request is dispatched natively, and the
registry side conditions hold. -/
theorem C10_witness :
    (("ETH" : String) = "ETH" ∨ ("ETH" : String) = "EDG")
    ∧ cooldownPasses [] 5 "0xAAAAAAAAAAAAAAAAAAAAAAAAAAAAAAAAAAAAAAAA" "ETH" = true
    ∧ addressCheck "0xAAAAAAAAAAAAAAAAAAAAAAAAAAAAAAAAAAAAAAAA" = true
    ∧ ∃ w tx, (faucetHandler [] 5 "ETH" "0xAAAAAAAAAAAAAAAAAAAAAAAAAAAAAAAAAAAAAAAA"
        (Except.ok "0xh")).action = some (FaucetAction.nativeSend w tx) :=
  ⟨Or.inl rfl, by decide, by decide,
    C10_getContract_exact.2.2.2.2 [] 5 "0xAAAAAAAAAAAAAAAAAAAAAAAAAAAAAAAAAAAAAAAA"
      (Except.ok "0xh") "ETH" (Or.inl rfl) (by decide) (by decide)⟩
